import Mathlib

/-!
Shallow embedding of `src/internal/exchanges/dydx/scripts/dydx_client.py`,
the dYdX v4 command bridge: it reads one JSON request from stdin, dispatches
to one of three handlers (`place_order`, `cancel_order`, `get_balance`),
writes one JSON result to stdout and exits 0 on success, 1 on failure.

Modelling conventions:
- Python/JSON values are the inductive `JValue`; Python dicts are association
  lists of `JValue` pairs (insertion order preserved, as in Python 3.7+).
- The external dYdX SDK (`NodeClient.connect`, `Wallet.from_mnemonic`,
  `client.cancel_order`, `client.get_subaccounts`, `make_mainnet`) is an
  opaque capability boundary, modelled by the oracle `SdkOracle` whose fields
  hold the responses the SDK would give; every SDK interaction is also
  recorded in a trace of `SdkCall` events so that claims of the form
  "no SDK call is made" are statements about the trace.
- Python exceptions are `Except String`, carrying the message `str(e)`.
  CPython message texts for AttributeError / float conversion errors are
  reproduced up to minor detail; no claim depends on their exact wording.
- `json.loads(sys.stdin.read())` is modelled by the already-parsed input
  `Except String JValue` (`.error` = a JSONDecodeError and its message).
- `json.dumps` is `dumpDict`; it fails exactly when a dict key is not a
  string, as CPython's dumps does (escaping is modelled for the common
  escape characters).
-/

namespace DydxClient

/-- A Python/JSON value as handled by the script: JSON scalars, lists and
dicts (dict keys are themselves values, as in Python). JSON numbers are
modelled as integers; no claim involves fractional literals. -/
inductive JValue where
  | null : JValue
  | bool : Bool → JValue
  | num : Int → JValue
  | str : String → JValue
  | arr : List JValue → JValue
  | obj : List (JValue × JValue) → JValue
deriving Repr

/-- A Python dict, insertion ordered. -/
abbrev PyDict := List (JValue × JValue)

mutual

/-- Python `==` on the values above (structural; the `True == 1` coercion
corner of Python is not exercised by the script's comparisons). -/
def jbeq : JValue → JValue → Bool
  | .null, .null => true
  | .bool a, .bool b => a == b
  | .num a, .num b => a == b
  | .str a, .str b => a == b
  | .arr a, .arr b => jbeqL a b
  | .obj a, .obj b => jbeqP a b
  | _, _ => false

def jbeqL : List JValue → List JValue → Bool
  | [], [] => true
  | a :: as, b :: bs => jbeq a b && jbeqL as bs
  | _, _ => false

def jbeqP : List (JValue × JValue) → List (JValue × JValue) → Bool
  | [], [] => true
  | (k1, v1) :: as, (k2, v2) :: bs => jbeq k1 k2 && jbeq v1 v2 && jbeqP as bs
  | _, _ => false

end

/-- Python truthiness (`if x:`). -/
def truthy : JValue → Bool
  | .null => false
  | .bool b => b
  | .num n => n != 0
  | .str s => !s.isEmpty
  | .arr l => !l.isEmpty
  | .obj l => !l.isEmpty

/-- The name `type(v).__name__` would print. -/
def pyTypeName : JValue → String
  | .null => "NoneType"
  | .bool _ => "bool"
  | .num _ => "int"
  | .str _ => "str"
  | .arr _ => "list"
  | .obj _ => "dict"

/-- A single-quote character, used when reproducing CPython message texts. -/
def sq : String := String.singleton (Char.ofNat 39)

mutual

/-- Python `repr` of a value (used by `str` on containers and in f-strings). -/
def pyRepr : JValue → String
  | .null => "None"
  | .bool true => "True"
  | .bool false => "False"
  | .num n => toString n
  | .str s => sq ++ s ++ sq
  | .arr l => "[" ++ String.intercalate ", " (pyReprL l) ++ "]"
  | .obj l => "\x7b" ++ String.intercalate ", " (pyReprP l) ++ "\x7d"

def pyReprL : List JValue → List String
  | [] => []
  | v :: rest => pyRepr v :: pyReprL rest

def pyReprP : List (JValue × JValue) → List String
  | [] => []
  | (k, v) :: rest => (pyRepr k ++ ": " ++ pyRepr v) :: pyReprP rest

end

/-- Python `str`, as used by f-string interpolation (`f"... \x7bcommand\x7d"`). -/
def pyStr : JValue → String
  | .str s => s
  | v => pyRepr v

/-- First-match lookup in a dict (keys compared by Python `==`). -/
def jlookup : PyDict → JValue → Option JValue
  | [], _ => none
  | (k2, v) :: rest, k => if jbeq k2 k then some v else jlookup rest k

/-- Python `d.get(key, default)` for a value already known to be a dict. -/
def pyDictGet (l : PyDict) (k dflt : JValue) : JValue :=
  (jlookup l k).getD dflt

/-- The AttributeError message raised when `.attr` is accessed on a value
that has no such attribute. -/
def noAttrMsg (v : JValue) (attr : String) : String :=
  sq ++ pyTypeName v ++ sq ++ " object has no attribute " ++ sq ++ attr ++ sq

/-- Python `v.get(key, default)`: succeeds when `v` is a dict, raises
AttributeError otherwise. -/
def pyObjGet (v : JValue) (k dflt : JValue) : Except String JValue :=
  match v with
  | .obj l => .ok (pyDictGet l k dflt)
  | v => .error (noAttrMsg v "get")

/-- Python `v.upper()`: succeeds on strings, raises AttributeError otherwise. -/
def pyUpper (v : JValue) : Except String String :=
  match v with
  | .str s => .ok s.toUpper
  | v => .error (noAttrMsg v "upper")

/-- Does this character string parse as a Python float literal?  Modelled
for plain decimal literals (optional sign, digits, at most one point);
exponent/inf/nan forms are not exercised by any claim. -/
def floatBodyOk (l : List Char) : Bool :=
  (l.all fun c => c.isDigit || c = Char.ofNat 46) &&
  (l.count (Char.ofNat 46) ≤ 1) &&
  (l.any (·.isDigit))

def floatCharsOk (l : List Char) : Bool :=
  match l with
  | c :: rest => if c = Char.ofNat 43 || c = Char.ofNat 45 then floatBodyOk rest else floatBodyOk l
  | [] => false

/-- Python `float(v)`: the script never uses the converted value, only
whether the conversion raises, so the model returns `Unit`. -/
def pyFloat (v : JValue) : Except String Unit :=
  match v with
  | .num _ => .ok ()
  | .bool _ => .ok ()
  | .str s =>
      if floatCharsOk s.data then .ok ()
      else .error ("could not convert string to float: " ++ sq ++ s ++ sq)
  | v => .error ("float() argument must be a string or a real number, not " ++
      sq ++ pyTypeName v ++ sq)

/-- Python `for x in v`: lists iterate elements, strings iterate characters,
dicts iterate keys; other values raise TypeError. -/
def pyIter (v : JValue) : Except String (List JValue) :=
  match v with
  | .arr l => .ok l
  | .str s => .ok (s.data.map fun c => .str (String.singleton c))
  | .obj l => .ok (l.map (·.1))
  | v => .error (sq ++ pyTypeName v ++ sq ++ " object is not iterable")

/-- Python dict assignment `d[k] = v`: overwrite in place if the key is
present, append otherwise (insertion order preserved). -/
def dictSet (d : PyDict) (k v : JValue) : PyDict :=
  if d.any fun p => jbeq p.1 k then
    d.map fun p => if jbeq p.1 k then (p.1, v) else p
  else d ++ [(k, v)]

/-- Escape one character as CPython `json.dumps` does for the common escape
characters (the `\uXXXX` form for other control/non-ASCII characters is not
exercised by any claim). -/
def escChar (c : Char) : String :=
  if c = '"' then "\\\""
  else if c = '\\' then "\\\\"
  else if c = Char.ofNat 10 then "\\n"
  else if c = Char.ofNat 9 then "\\t"
  else if c = Char.ofNat 13 then "\\r"
  else String.singleton c

def jEscape (s : String) : String :=
  String.join (s.data.map escChar)

mutual

/-- CPython `json.dumps` (default separators) on a value; fails exactly on
non-string dict keys, as the real dumps raises TypeError there. -/
def jdump : JValue → Except String String
  | .null => .ok "null"
  | .bool true => .ok "true"
  | .bool false => .ok "false"
  | .num n => .ok (toString n)
  | .str s => .ok ("\"" ++ jEscape s ++ "\"")
  | .arr l =>
      match jdumpL l with
      | .error e => .error e
      | .ok parts => .ok ("[" ++ String.intercalate ", " parts ++ "]")
  | .obj l =>
      match jdumpP l with
      | .error e => .error e
      | .ok parts => .ok ("\x7b" ++ String.intercalate ", " parts ++ "\x7d")

def jdumpL : List JValue → Except String (List String)
  | [] => .ok []
  | v :: rest =>
      match jdump v with
      | .error e => .error e
      | .ok s =>
          match jdumpL rest with
          | .error e => .error e
          | .ok r => .ok (s :: r)

def jdumpP : List (JValue × JValue) → Except String (List String)
  | [] => .ok []
  | (k, v) :: rest =>
      match k with
      | .str ks =>
          match jdump v with
          | .error e => .error e
          | .ok s =>
              match jdumpP rest with
              | .error e => .error e
              | .ok r => .ok (("\"" ++ jEscape ks ++ "\": " ++ s) :: r)
      | _ => .error "keys must be str, int, float, bool or None, not JValue"

end

/-- `json.dumps` of a whole (top-level) dict. -/
def dumpDict (d : PyDict) : Except String String :=
  match jdumpP d with
  | .error e => .error e
  | .ok parts => .ok ("\x7b" ++ String.intercalate ", " parts ++ "\x7d")

/-- A network profile as held in `self.network`: either the SDK's `TESTNET`
constant or the object `make_mainnet(...)` builds from its endpoint URLs. -/
inductive NetworkProfile where
  | TESTNET : NetworkProfile
  | mainnet (restIndexer websocketIndexer nodeUrl : String) : NetworkProfile
deriving Repr, DecidableEq

/-- The mainnet profile the constructor requests (`make_mainnet` call at
lines 59-63 of the source). -/
def mainnetProfile : NetworkProfile :=
  .mainnet "https://indexer.dydx.trade" "wss://indexer.dydx.trade/v4/ws"
    "tendermint.kingnodes.com"

/-- One interaction with the external SDK, recorded in the run trace.
`walletFromMnemonic` stands for the whole wallet-derivation sequence of
`initialize` (`KeyPair.from_mnemonic` + `Wallet.from_mnemonic`), which is
the only place the mnemonic is handed to the SDK. -/
inductive SdkCall where
  | makeMainnet : SdkCall
  | connect (net : NetworkProfile) : SdkCall
  | walletFromMnemonic (mnemonic : String) : SdkCall
  | cancelOrder (orderId : JValue) : SdkCall
  | getSubaccounts : SdkCall
deriving Repr

/-- Responses of the external SDK for one process run (the opaque capability
boundary of the spec): each field holds what the corresponding SDK call
returns, `.error` meaning the call raises with that message. `uuid` is the
value `str(uuid.uuid4())` produces in `place_order`. -/
structure SdkOracle where
  makeMainnet : Except String Unit
  connect : Except String Unit
  walletFromMnemonic : Except String Unit
  cancelOrder : JValue → Except String PyDict
  getSubaccounts : Except String (List JValue)
  uuid : String

/-- The failure dict `{"success": False, "error": str(e)}` built on every
caught exception. -/
def failRes (e : String) : PyDict :=
  [(.str "success", .bool false), (.str "error", .str e)]

/-- Message of the ValueError raised when a handler runs uninitialized. -/
def notInitMsg : String := "Client not initialized. Call initialize() first."

/-- Message of the ImportError raised by the constructor (and printed by the
`__main__` guard) when the SDK is not importable. -/
def notInstalledMsg : String :=
  "dydx-v4-client-py not installed. Run: pip install dydx-v4-client-py"

/-- `DydxClientWrapper.__init__` (lines 48-72): resolves the network profile.
Returns the profile or the raised error, plus the SDK calls made. On any
exception from `make_mainnet` the bare `except:` silently falls back to
`TESTNET`; a network value other than `"testnet"`/`"mainnet"` raises
ValueError. -/
def wrapperNew (hasDydx : Bool) (network : JValue) (o : SdkOracle) :
    Except String NetworkProfile × List SdkCall :=
  if hasDydx = false then (.error notInstalledMsg, [])
  else if jbeq network (.str "testnet") then (.ok .TESTNET, [])
  else if jbeq network (.str "mainnet") then
    match o.makeMainnet with
    | .ok _ => (.ok mainnetProfile, [.makeMainnet])
    | .error _ => (.ok .TESTNET, [.makeMainnet])
  else (.error ("Invalid network: " ++ pyStr network), [])

/-- Result component of `DydxClientWrapper.initialize` (lines 74-89):
`NodeClient.connect`, then wallet derivation from the mnemonic. The SDK
responses determine success; the mnemonic only flows into the call trace
(`initCalls`), mirroring that it is passed to the SDK and used nowhere
else. -/
def initResult (o : SdkOracle) : Except String Unit :=
  match o.connect with
  | .error e => .error e
  | .ok _ =>
    match o.walletFromMnemonic with
    | .error e => .error e
    | .ok _ => .ok ()

/-- SDK calls performed by `DydxClientWrapper.initialize`. -/
def initCalls (net : NetworkProfile) (mnemonic : String) (o : SdkOracle) :
    List SdkCall :=
  match o.connect with
  | .error _ => [.connect net]
  | .ok _ => [.connect net, .walletFromMnemonic mnemonic]

/-- The `try`-block body of `place_order` up to (and including) the
`clientId` extraction, in source order (lines 97-102): each step may raise.
Steps whose values the stub never uses (`market`, `side`, `type`, `size`,
`price`) are evaluated only for their exceptions; the last step returns the
extracted `clientId`. -/
def place_orderChecks (data : JValue) : Except String JValue := do
  let _market ← pyObjGet data (.str "market") (.str "BTC-USD")
  let sideV ← pyObjGet data (.str "side") (.str "BUY")
  let _side ← pyUpper sideV
  let typeV ← pyObjGet data (.str "type") (.str "LIMIT")
  let _orderType ← pyUpper typeV
  let sizeV ← pyObjGet data (.str "size") (.num 0)
  let _ ← pyFloat sizeV
  let priceV ← pyObjGet data (.str "price") (.num 0)
  let _ ← pyFloat priceV
  pyObjGet data (.str "clientId") (.str "")

/-- `DydxClientWrapper.place_order` (lines 91-123). Per the source's NOTE
(lines 104-107) no SDK call is made: a fresh uuid is returned as `orderId`,
`clientId` is `client_id or order_id`, and `txHash` is the empty string. -/
def place_order (initialized : Bool) (data : JValue) (o : SdkOracle) :
    PyDict × List SdkCall :=
  if initialized = false then (failRes notInitMsg, [])
  else
    match place_orderChecks data with
    | .error e => (failRes e, [])
    | .ok clientId =>
        ([(.str "success", .bool true),
          (.str "orderId", .str o.uuid),
          (.str "clientId", if truthy clientId then clientId else .str o.uuid),
          (.str "txHash", .str "")], [])

/-- `DydxClientWrapper.cancel_order` (lines 125-154): requires a truthy
`orderId` in `data`; otherwise delegates to `client.cancel_order` and
returns the id plus the response's `txHash`. -/
def cancel_order (initialized : Bool) (data : JValue) (o : SdkOracle) :
    PyDict × List SdkCall :=
  if initialized = false then (failRes notInitMsg, [])
  else
    match pyObjGet data (.str "orderId") .null with
    | .error e => (failRes e, [])
    | .ok oid =>
        if truthy oid = false then
          ([(.str "success", .bool false),
            (.str "error", .str "orderId is required")], [])
        else
          match o.cancelOrder oid with
          | .error e => (failRes e, [.cancelOrder oid])
          | .ok resp =>
              ([(.str "success", .bool true),
                (.str "orderId", oid),
                (.str "txHash", pyDictGet resp (.str "txHash") (.str ""))],
               [.cancelOrder oid])

/-- The balance-reshaping loop of `get_balance` (lines 164-169): for each
asset position, `balances[pos.get("symbol", "USDC")] = pos.get("size", "0")`;
a non-dict position raises AttributeError at its `.get`. -/
def balancesLoop : List JValue → PyDict → Except String PyDict
  | [], acc => .ok acc
  | p :: rest, acc =>
      match p with
      | .obj d =>
          balancesLoop rest
            (dictSet acc (pyDictGet d (.str "symbol") (.str "USDC"))
              (pyDictGet d (.str "size") (.str "0")))
      | v => .error (noAttrMsg v "get")

/-- The flat asset-symbol-to-amount mapping `get_balance` builds from the
subaccount-query response: nothing when the account list is falsy, else the
loop over `account[0].get("assetPositions", [])`. -/
def balancesOf (account : List JValue) : Except String PyDict :=
  match account with
  | [] => .ok []
  | first :: _ =>
      match first with
      | .obj d =>
          match pyIter (pyDictGet d (.str "assetPositions") (.arr [])) with
          | .error e => .error e
          | .ok ps => balancesLoop ps []
      | v => .error (noAttrMsg v "get")

/-- `DydxClientWrapper.get_balance` (lines 156-180): one subaccount query,
then the reshaping loop; any exception becomes a failure dict. The `data`
argument is accepted and ignored, as in the source. -/
def get_balance (initialized : Bool) (_data : JValue) (o : SdkOracle) :
    PyDict × List SdkCall :=
  if initialized = false then (failRes notInitMsg, [])
  else
    match o.getSubaccounts with
    | .error e => (failRes e, [.getSubaccounts])
    | .ok account =>
        match balancesOf account with
        | .error e => (failRes e, [.getSubaccounts])
        | .ok bals =>
            ([(.str "success", .bool true), (.str "balance", .obj bals)],
             [.getSubaccounts])

/-- `DydxClientWrapper.execute_command` (lines 182-194): string dispatch on
the three commands; anything else is the unknown-command failure dict. -/
def execute_command (initialized : Bool) (command data : JValue)
    (o : SdkOracle) : PyDict × List SdkCall :=
  if jbeq command (.str "place_order") then place_order initialized data o
  else if jbeq command (.str "cancel_order") then cancel_order initialized data o
  else if jbeq command (.str "get_balance") then get_balance initialized data o
  else
    ([(.str "success", .bool false),
      (.str "error", .str ("Unknown command: " ++ pyStr command))], [])

/-- The failure dict for a missing/empty `DYDX_MNEMONIC_SECRET` (lines
211-215). -/
def mnemonicMissingRes : PyDict :=
  [(.str "success", .bool false),
   (.str "error", .str "mnemonic not provided in environment (DYDX_MNEMONIC_SECRET)")]

/-- The credentialed part of `main` (lines 217-222): construct the wrapper,
initialize it, then execute the command. Any raised error propagates to
`main`'s `except`. -/
def runWithClient (hasDydx : Bool) (command network data : JValue)
    (mnemonic : String) (o : SdkOracle) : Except String PyDict × List SdkCall :=
  match (wrapperNew hasDydx network o).1 with
  | .error e => (.error e, (wrapperNew hasDydx network o).2)
  | .ok net =>
      match initResult o with
      | .error e =>
          (.error e, (wrapperNew hasDydx network o).2 ++ initCalls net mnemonic o)
      | .ok _ =>
          (.ok (execute_command true command data o).1,
           (wrapperNew hasDydx network o).2 ++ initCalls net mnemonic o ++
             (execute_command true command data o).2)

/-- The `try`-block of `main` (lines 199-222): parse stdin, extract
`command` / `network` / `data` (each a `.get` on the parsed object, raising
if it is not a dict), read the mnemonic from the environment, and either
short-circuit on a missing mnemonic or run the command. `.error` is an
exception reaching `main`'s `except` clause. -/
def mainTry (input : Except String JValue) (mnemonic : String)
    (hasDydx : Bool) (o : SdkOracle) : Except String PyDict × List SdkCall :=
  match input with
  | .error e => (.error e, [])
  | .ok inputData =>
    match pyObjGet inputData (.str "command") .null with
    | .error e => (.error e, [])
    | .ok command =>
    match pyObjGet inputData (.str "network") (.str "testnet") with
    | .error e => (.error e, [])
    | .ok network =>
    match pyObjGet inputData (.str "data") (.obj []) with
    | .error e => (.error e, [])
    | .ok data =>
    if mnemonic = "" then (.ok mnemonicMissingRes, [])
    else runWithClient hasDydx command network data mnemonic o

/-- Observable outcome of one process run: the lines printed to stdout, the
exit code, the (single) result dict that was serialized, and the SDK-call
trace. -/
structure RunOutcome where
  stdout : List String
  exitCode : Nat
  result : PyDict
  calls : List SdkCall
deriving Repr

/-- `sys.exit(0 if result.get("success") else 1)` (line 226). -/
def exitFor (r : PyDict) : Nat :=
  if truthy (pyDictGet r (.str "success") .null) then 0 else 1

/-- `main` (lines 197-234): on a computed result, print its dumps and exit
by its `success` truthiness; on an exception (including one raised by
`json.dumps` itself), print the dumps of `{"success": False, "error":
str(e)}` and exit 1. The inner `.error` branches (dumps failing on that
failure dict) are unreachable — `dumpFail_ok` below — and model the uncaught
re-raise that would otherwise occur. -/
def mainRun (input : Except String JValue) (mnemonic : String)
    (hasDydx : Bool) (o : SdkOracle) : RunOutcome :=
  let calls := (mainTry input mnemonic hasDydx o).2
  match (mainTry input mnemonic hasDydx o).1 with
  | .ok result =>
      match dumpDict result with
      | .ok line => ⟨[line], exitFor result, result, calls⟩
      | .error e =>
          match dumpDict (failRes e) with
          | .ok line => ⟨[line], 1, failRes e, calls⟩
          | .error _ => ⟨[], 1, failRes e, calls⟩
  | .error e =>
      match dumpDict (failRes e) with
      | .ok line => ⟨[line], 1, failRes e, calls⟩
      | .error _ => ⟨[], 1, failRes e, calls⟩

/-- The `__main__` guard (lines 237-246): if the SDK failed to import, print
a fixed failure dict and exit 1 without touching stdin; otherwise run
`main`. -/
def scriptRun (hasDydx : Bool) (input : Except String JValue)
    (mnemonic : String) (o : SdkOracle) : RunOutcome :=
  if hasDydx = false then
    match dumpDict (failRes notInstalledMsg) with
    | .ok line => ⟨[line], 1, failRes notInstalledMsg, []⟩
    | .error _ => ⟨[], 1, failRes notInstalledMsg, []⟩
  else mainRun input mnemonic hasDydx o

/-- Substring occurrence on character lists: does `needle` occur
contiguously in `hay`? -/
def leadsList : List Char → List Char → Bool
  | [], _ => true
  | _ :: _, [] => false
  | a :: as, b :: bs => a = b && leadsList as bs

def containsChunk (hay needle : List Char) : Bool :=
  match hay with
  | [] => leadsList needle []
  | _ :: t => leadsList needle hay || containsChunk t needle

/-- Does the string `needle` occur in `hay`? -/
def occursIn (needle hay : String) : Bool :=
  containsChunk hay.data needle.data

/-- An SDK oracle on which every call succeeds with the simplest response;
used to instantiate theorems at concrete runs. -/
def okOracle : SdkOracle where
  makeMainnet := .ok ()
  connect := .ok ()
  walletFromMnemonic := .ok ()
  cancelOrder := fun _ => .ok [(.str "txHash", .str "0xabc")]
  getSubaccounts := .ok []
  uuid := "11111111-2222-3333-4444-555555555555"

/-- `json.dumps` never fails on the `{"success": False, "error": str(e)}`
failure dict: both keys are strings. -/
lemma dumpFail_ok (e : String) : ∃ s, dumpDict (failRes e) = .ok s := by
  simp [dumpDict, failRes, jdumpP, jdump]

/-- Every result dict a handler can return starts with a boolean
`"success"` entry. -/
def headOk (r : PyDict) : Prop :=
  ∃ b rest, r = (.str "success", .bool b) :: rest

lemma failRes_headOk (e : String) : headOk (failRes e) :=
  ⟨false, _, rfl⟩

lemma place_order_headOk (i : Bool) (d : JValue) (o : SdkOracle) :
    headOk (place_order i d o).1 := by
  unfold place_order failRes
  split
  · exact ⟨false, _, rfl⟩
  · split
    · exact ⟨false, _, rfl⟩
    · exact ⟨true, _, rfl⟩

lemma cancel_order_headOk (i : Bool) (d : JValue) (o : SdkOracle) :
    headOk (cancel_order i d o).1 := by
  unfold cancel_order failRes
  split
  · exact ⟨false, _, rfl⟩
  · split
    · exact ⟨false, _, rfl⟩
    · split
      · exact ⟨false, _, rfl⟩
      · split
        · exact ⟨false, _, rfl⟩
        · exact ⟨true, _, rfl⟩

lemma get_balance_headOk (i : Bool) (d : JValue) (o : SdkOracle) :
    headOk (get_balance i d o).1 := by
  unfold get_balance failRes
  split
  · exact ⟨false, _, rfl⟩
  · split
    · exact ⟨false, _, rfl⟩
    · split
      · exact ⟨false, _, rfl⟩
      · exact ⟨true, _, rfl⟩

lemma execute_command_headOk (i : Bool) (c d : JValue) (o : SdkOracle) :
    headOk (execute_command i c d o).1 := by
  unfold execute_command
  split
  · exact place_order_headOk i d o
  · split
    · exact cancel_order_headOk i d o
    · split
      · exact get_balance_headOk i d o
      · exact ⟨false, _, rfl⟩

lemma mainTry_ok_headOk (input : Except String JValue) (m : String) (h : Bool)
    (o : SdkOracle) (r : PyDict) (hr : (mainTry input m h o).1 = .ok r) :
    headOk r := by
  unfold mainTry at hr
  split at hr
  · exact absurd hr (by simp)
  · split at hr
    · exact absurd hr (by simp)
    · split at hr
      · exact absurd hr (by simp)
      · split at hr
        · exact absurd hr (by simp)
        · split at hr
          · simp only [Except.ok.injEq] at hr
            exact hr ▸ ⟨false, _, rfl⟩
          · unfold runWithClient at hr
            split at hr
            · exact absurd hr (by simp)
            · split at hr
              · exact absurd hr (by simp)
              · simp only [Except.ok.injEq] at hr
                exact hr ▸ execute_command_headOk _ _ _ _

lemma exitFor_headOk (b : Bool) (rest : PyDict) :
    exitFor ((.str "success", .bool b) :: rest) = if b then 0 else 1 := by
  simp [exitFor, pyDictGet, jlookup, jbeq, truthy]

lemma jlookup_success_head (b : Bool) (rest : PyDict) :
    jlookup (((.str "success" : JValue), (.bool b : JValue)) :: rest)
      (.str "success") = some (.bool b) := by
  simp [jlookup, jbeq]

/-- C1: for every invocation of the bridge (any stdin bytes, any
environment, any SDK behavior), exactly one Result JSON object is written to
standard output, and the process exit code is 0 if and only if that Result's
`success` field is `true` (so `success=false` implies exit code 1), on the
normal, exception and missing-library paths alike. -/
theorem one_result_exit_iff_success (hasDydx : Bool)
    (input : Except String JValue) (mnemonic : String) (o : SdkOracle) :
    (scriptRun hasDydx input mnemonic o).stdout.length = 1 ∧
    ((scriptRun hasDydx input mnemonic o).exitCode = 0 ↔
      jlookup (scriptRun hasDydx input mnemonic o).result (.str "success") =
        some (.bool true)) ∧
    ((scriptRun hasDydx input mnemonic o).exitCode = 0 ∨
      (scriptRun hasDydx input mnemonic o).exitCode = 1) := by
  unfold scriptRun
  split
  · obtain ⟨s, hs⟩ := dumpFail_ok notInstalledMsg
    rw [hs]
    refine ⟨rfl, ?_, Or.inr rfl⟩
    simp [failRes, jlookup, jbeq]
  · unfold mainRun
    cases hm : (mainTry input mnemonic hasDydx o).1 with
    | ok r =>
        obtain ⟨b, rest, hr⟩ := mainTry_ok_headOk input mnemonic hasDydx o r hm
        subst hr
        cases hd : dumpDict ((.str "success", .bool b) :: rest) with
        | ok line =>
            simp only [hd]
            refine ⟨by simp, ?_, ?_⟩
            · rw [exitFor_headOk, jlookup_success_head]
              cases b <;> simp
            · rw [exitFor_headOk]
              cases b <;> simp
        | error e =>
            obtain ⟨s, hs⟩ := dumpFail_ok e
            simp only [hd, hs]
            refine ⟨by simp, ?_, Or.inr trivial⟩
            simp [failRes, jlookup, jbeq]
    | error e =>
        obtain ⟨s, hs⟩ := dumpFail_ok e
        simp only [hs]
        refine ⟨by simp, ?_, Or.inr trivial⟩
        simp [failRes, jlookup, jbeq]


lemma runWithClient_fst_eq (h : Bool) (c n d : JValue) (o : SdkOracle)
    (m1 m2 : String) :
    (runWithClient h c n d m1 o).1 = (runWithClient h c n d m2 o).1 := by
  unfold runWithClient
  cases hw : (wrapperNew h n o).1 with
  | error e => rfl
  | ok net =>
      cases hi : initResult o with
      | error e => rfl
      | ok u => rfl

lemma mainTry_fst_eq (input : Except String JValue) (h : Bool) (o : SdkOracle)
    (m1 m2 : String) (h1 : m1 ≠ "") (h2 : m2 ≠ "") :
    (mainTry input m1 h o).1 = (mainTry input m2 h o).1 := by
  unfold mainTry
  cases input with
  | error e => rfl
  | ok inputData =>
      dsimp only
      cases hc : pyObjGet inputData (.str "command") .null with
      | error e => rfl
      | ok command =>
          dsimp only
          cases hn : pyObjGet inputData (.str "network") (.str "testnet") with
          | error e => rfl
          | ok network =>
              dsimp only
              cases hd : pyObjGet inputData (.str "data") (.obj []) with
              | error e => rfl
              | ok data =>
                  dsimp only
                  rw [if_neg h1, if_neg h2]
                  exact runWithClient_fst_eq h command network data o m1 m2

/-- C9 (amended): the output of the bridge carries no information about the
(non-empty) mnemonic: two runs that differ only in the mnemonic value, with
the same request and the same SDK responses, write the same bytes to stdout,
exit with the same code and emit the same Result. (The mnemonic flows from
the environment only into the SDK wallet-construction call.) -/
theorem mnemonic_noninterference (hasDydx : Bool) (input : Except String JValue)
    (o : SdkOracle) (m1 m2 : String) (h1 : m1 ≠ "") (h2 : m2 ≠ "") :
    (scriptRun hasDydx input m1 o).stdout = (scriptRun hasDydx input m2 o).stdout ∧
    (scriptRun hasDydx input m1 o).exitCode = (scriptRun hasDydx input m2 o).exitCode ∧
    (scriptRun hasDydx input m1 o).result = (scriptRun hasDydx input m2 o).result := by
  have key := mainTry_fst_eq input hasDydx o m1 m2 h1 h2
  unfold scriptRun
  split
  · exact ⟨rfl, rfl, rfl⟩
  · unfold mainRun
    simp only [key]
    cases hx : (mainTry input m2 hasDydx o).1 with
    | ok r =>
        dsimp only
        cases hd : dumpDict r with
        | ok line => exact ⟨rfl, rfl, rfl⟩
        | error e =>
            dsimp only
            cases hf : dumpDict (failRes e) with
            | ok line => exact ⟨rfl, rfl, rfl⟩
            | error e2 => exact ⟨rfl, rfl, rfl⟩
    | error e =>
        dsimp only
        cases hf : dumpDict (failRes e) with
        | ok line => exact ⟨rfl, rfl, rfl⟩
        | error e2 => exact ⟨rfl, rfl, rfl⟩

/-- C9 (counterexample to the claim as stated): in the concrete run below the
(non-empty) mnemonic is the string "success", and that text does occur in
the bytes written to stdout — every emitted Result contains the text
"success" — so "the mnemonic text does not appear in the bytes written to
stdout" is false as a statement about substring occurrence. -/
theorem mnemonic_text_occurs_in_stdout :
    ("success" ≠ "") ∧
    (scriptRun true
        (.ok (.obj [(.str "command", .str "get_balance"),
                    (.str "network", .str "testnet"),
                    (.str "data", .obj [])]))
        "success" okOracle).stdout =
      ["\x7b\"success\": true, \"balance\": \x7b\x7d\x7d"] ∧
    occursIn "success"
      "\x7b\"success\": true, \"balance\": \x7b\x7d\x7d" = true := by
  refine ⟨by decide, by rfl, by rfl⟩

/-- C5: for every request (any parsed stdin object) arriving with a missing
or empty `DYDX_MNEMONIC_SECRET`, the bridge emits the fixed
mnemonic-missing failure Result, exits 1, and attempts no network connection
or SDK call at any point of the run (the trace is empty). -/
theorem missing_credential_short_circuit (inputData : PyDict) (o : SdkOracle) :
    (scriptRun true (.ok (.obj inputData)) "" o).result = mnemonicMissingRes ∧
    (scriptRun true (.ok (.obj inputData)) "" o).exitCode = 1 ∧
    (scriptRun true (.ok (.obj inputData)) "" o).stdout =
      ["\x7b\"success\": false, \"error\": \"mnemonic not provided in environment (DYDX_MNEMONIC_SECRET)\"\x7d"] ∧
    (scriptRun true (.ok (.obj inputData)) "" o).calls = [] :=
  ⟨rfl, rfl, rfl, rfl⟩

/-- C8: when the SDK library is not importable, the run is a fixed failure
Result naming the missing library with exit code 1, and it is the same for
every stdin content, environment and SDK behavior — in particular stdin is
never read or parsed (the outcome does not depend on `input`) and no SDK
call is made. -/
theorem missing_library_short_circuit (input : Except String JValue)
    (mnemonic : String) (o : SdkOracle) :
    scriptRun false input mnemonic o =
      ⟨["\x7b\"success\": false, \"error\": \"dydx-v4-client-py not installed. Run: pip install dydx-v4-client-py\"\x7d"],
       1, failRes notInstalledMsg, []⟩ :=
  rfl

/-- C2 (evidence of the code bug): on a fully-specified `place_order`
request against an initialized client, the handler performs no SDK call at
all (empty trace), returns the oracle uuid as `orderId` — a synthesized
placeholder, not an identifier produced by order submission — and returns an
empty `txHash`, instead of delegating construction/signing/submission to the
SDK and returning the submitted transaction hash. -/
theorem place_order_placeholder_no_submission :
    place_order true
      (.obj [(.str "market", .str "ETH-USD"), (.str "side", .str "SELL"),
             (.str "type", .str "LIMIT"), (.str "size", .str "1.5"),
             (.str "price", .str "100"), (.str "clientId", .str "c1")])
      okOracle =
    ([(.str "success", .bool true),
      (.str "orderId", .str okOracle.uuid),
      (.str "clientId", .str "c1"),
      (.str "txHash", .str "")], []) :=
  rfl

/-- C7 (evidence of the code bug): `place_order` extracts the order type but
never selects an order-flag classification from it — a MARKET and a LIMIT
request with otherwise identical data produce byte-for-byte identical
behavior (same result, same empty SDK trace), and `OrderFlags` is never
involved (no SDK interaction happens at all). -/
theorem place_order_ignores_order_type :
    (place_order true
        (.obj [(.str "type", .str "MARKET"), (.str "size", .str "1"),
               (.str "price", .str "100")]) okOracle =
      place_order true
        (.obj [(.str "type", .str "LIMIT"), (.str "size", .str "1"),
               (.str "price", .str "100")]) okOracle) ∧
    (place_order true
        (.obj [(.str "type", .str "MARKET"), (.str "size", .str "1"),
               (.str "price", .str "100")]) okOracle).2 = [] :=
  ⟨rfl, rfl⟩

/-- C3: a `cancel_order` request whose data dict lacks `orderId`, with the
credential present and the client initialized (wrapper construction and
`initialize` succeed), yields exactly the Result
`{"success": false, "error": "orderId is required"}` with exit code 1; the
handler itself performs no SDK call (its trace is empty) and the whole run's
SDK trace is exactly the two initialization calls. -/
theorem cancel_missing_orderId (inputData d : PyDict) (mnemonic : String)
    (o : SdkOracle)
    (hm : mnemonic ≠ "")
    (hcmd : jlookup inputData (.str "command") = some (.str "cancel_order"))
    (hnet : jlookup inputData (.str "network") = some (.str "testnet"))
    (hdata : jlookup inputData (.str "data") = some (.obj d))
    (hnoid : jlookup d (.str "orderId") = none)
    (hconn : o.connect = .ok ()) (hwallet : o.walletFromMnemonic = .ok ()) :
    (scriptRun true (.ok (.obj inputData)) mnemonic o).result =
      [(.str "success", .bool false), (.str "error", .str "orderId is required")] ∧
    (scriptRun true (.ok (.obj inputData)) mnemonic o).exitCode = 1 ∧
    (scriptRun true (.ok (.obj inputData)) mnemonic o).stdout =
      ["\x7b\"success\": false, \"error\": \"orderId is required\"\x7d"] ∧
    (cancel_order true (.obj d) o).2 = [] ∧
    (scriptRun true (.ok (.obj inputData)) mnemonic o).calls =
      [.connect .TESTNET, .walletFromMnemonic mnemonic] := by
  have j1 : jbeq (.str "testnet") (.str "testnet") = true := rfl
  have j2 : jbeq (JValue.str "cancel_order") (.str "place_order") = false := rfl
  have j3 : jbeq (JValue.str "cancel_order") (.str "cancel_order") = true := rfl
  have e1 : pyObjGet (.obj inputData) (.str "command") .null =
      .ok (.str "cancel_order") := by simp [pyObjGet, pyDictGet, hcmd]
  have e2 : pyObjGet (.obj inputData) (.str "network") (.str "testnet") =
      .ok (.str "testnet") := by simp [pyObjGet, pyDictGet, hnet]
  have e3 : pyObjGet (.obj inputData) (.str "data") (.obj []) =
      .ok (.obj d) := by simp [pyObjGet, pyDictGet, hdata]
  have e4 : pyObjGet (.obj d) (.str "orderId") .null = .ok .null := by
    simp [pyObjGet, pyDictGet, hnoid]
  have hcan : cancel_order true (.obj d) o =
      ([(.str "success", .bool false), (.str "error", .str "orderId is required")],
       []) := by
    simp [cancel_order, e4, truthy]
  have hmt : mainTry (.ok (.obj inputData)) mnemonic true o =
      (.ok [(.str "success", .bool false), (.str "error", .str "orderId is required")],
       [.connect .TESTNET, .walletFromMnemonic mnemonic]) := by
    simp [mainTry, e1, e2, e3, if_neg hm, runWithClient, wrapperNew, j1,
      initResult, initCalls, hconn, hwallet, execute_command, j2, j3, hcan]
  refine ⟨?_, ?_, ?_, by simp [hcan], ?_⟩ <;>
    · simp only [scriptRun, mainRun, hmt, Bool.true_eq_false, if_false]
      rfl

/-- C4: a well-formed request whose command value is none of `place_order`,
`cancel_order`, `get_balance` (credential present, wrapper construction and
initialization succeeding) produces a Result with `success=false` whose
error message names the unknown command, exits with code 1, and still writes
exactly one line to stdout (no unhandled fault). -/
theorem unknown_command_failure (inputData : PyDict) (cmd netv : JValue)
    (net0 : NetworkProfile) (mnemonic : String) (o : SdkOracle)
    (hm : mnemonic ≠ "")
    (hcmd : jlookup inputData (.str "command") = some cmd)
    (hnetv : pyDictGet inputData (.str "network") (.str "testnet") = netv)
    (hwrap : (wrapperNew true netv o).1 = .ok net0)
    (h1 : jbeq cmd (.str "place_order") = false)
    (h2 : jbeq cmd (.str "cancel_order") = false)
    (h3 : jbeq cmd (.str "get_balance") = false)
    (hconn : o.connect = .ok ()) (hwallet : o.walletFromMnemonic = .ok ()) :
    (scriptRun true (.ok (.obj inputData)) mnemonic o).result =
      [(.str "success", .bool false),
       (.str "error", .str ("Unknown command: " ++ pyStr cmd))] ∧
    (scriptRun true (.ok (.obj inputData)) mnemonic o).exitCode = 1 ∧
    (scriptRun true (.ok (.obj inputData)) mnemonic o).stdout.length = 1 := by
  have e1 : pyObjGet (.obj inputData) (.str "command") .null = .ok cmd := by
    simp [pyObjGet, pyDictGet, hcmd]
  have e2 : pyObjGet (.obj inputData) (.str "network") (.str "testnet") =
      .ok netv := by rw [← hnetv]; rfl
  have e3 : pyObjGet (.obj inputData) (.str "data") (.obj []) =
      .ok (pyDictGet inputData (.str "data") (.obj [])) := rfl
  have hex : execute_command true cmd (pyDictGet inputData (.str "data") (.obj [])) o =
      ([(.str "success", .bool false),
        (.str "error", .str ("Unknown command: " ++ pyStr cmd))], []) := by
    simp [execute_command, h1, h2, h3]
  have hmt : mainTry (.ok (.obj inputData)) mnemonic true o =
      (.ok [(.str "success", .bool false),
            (.str "error", .str ("Unknown command: " ++ pyStr cmd))],
       (wrapperNew true netv o).2 ++ [.connect net0, .walletFromMnemonic mnemonic]) := by
    simp [mainTry, e1, e2, e3, if_neg hm, runWithClient, hwrap,
      initResult, initCalls, hconn, hwallet, hex]
  obtain ⟨s, hs⟩ := dumpFail_ok ("Unknown command: " ++ pyStr cmd)
  simp only [failRes] at hs
  refine ⟨?_, ?_, ?_⟩ <;>
    simp only [scriptRun, mainRun, hmt, Bool.true_eq_false, if_false, hs] <;> rfl

/-- C6: whenever the subaccount query succeeds and the reshaping loop raises
nothing, `get_balance` returns `success=true` with `balance` equal to the
flat symbol-to-amount mapping built from the first subaccount's asset
positions (one `getSubaccounts` SDK call); in particular the mapping is
empty when the query returns no subaccounts, and when the first subaccount
has an empty `assetPositions` list, making the Result exactly
`{"success": true, "balance": {}}`. -/
theorem get_balance_flat_mapping (o : SdkOracle) (dv : JValue)
    (account : List JValue) (bals : PyDict)
    (hs : o.getSubaccounts = .ok account) (hb : balancesOf account = .ok bals) :
    get_balance true dv o =
      ([(.str "success", .bool true), (.str "balance", .obj bals)],
       [.getSubaccounts]) ∧
    (account = [] → bals = []) ∧
    (∀ sub : PyDict, account = [.obj sub] →
      jlookup sub (.str "assetPositions") = some (.arr []) → bals = []) := by
  refine ⟨?_, ?_, ?_⟩
  · simp [get_balance, hs, hb]
  · intro ha
    subst ha
    simp [balancesOf] at hb
    exact hb
  · intro sub ha hpos
    subst ha
    simp [balancesOf, pyDictGet, hpos, pyIter, balancesLoop] at hb
    exact hb

/-- C10 (implicit in the source): if `make_mainnet` raises for a
`network="mainnet"` request, the bare `except:` silently substitutes the
TESTNET profile — construction succeeds, the run connects to TESTNET and the
command proceeds there rather than any failure being reported; only a
network literal other than "testnet"/"mainnet" raises a ValueError. -/
theorem mainnet_exception_falls_back_to_testnet (o : SdkOracle) (e : String)
    (net c d : JValue) (m : String)
    (hmm : o.makeMainnet = .error e)
    (hconn : o.connect = .ok ()) (hwallet : o.walletFromMnemonic = .ok ())
    (hn1 : jbeq net (.str "testnet") = false)
    (hn2 : jbeq net (.str "mainnet") = false) :
    wrapperNew true (.str "mainnet") o = (.ok .TESTNET, [.makeMainnet]) ∧
    runWithClient true c (.str "mainnet") d m o =
      (.ok (execute_command true c d o).1,
       [.makeMainnet, .connect .TESTNET, .walletFromMnemonic m] ++
         (execute_command true c d o).2) ∧
    wrapperNew true net o = (.error ("Invalid network: " ++ pyStr net), []) := by
  have jt : jbeq (.str "mainnet") (.str "testnet") = false := rfl
  have jm : jbeq (JValue.str "mainnet") (.str "mainnet") = true := rfl
  have hw : wrapperNew true (.str "mainnet") o = (.ok .TESTNET, [.makeMainnet]) := by
    simp [wrapperNew, jt, jm, hmm]
  refine ⟨hw, ?_, ?_⟩
  · simp [runWithClient, hw, initResult, initCalls, hconn, hwallet]
  · simp [wrapperNew, hn1, hn2]

/-- Witness for `cancel_missing_orderId` at a concrete run. -/
theorem cancel_missing_orderId_witness :
    (scriptRun true
        (.ok (.obj [(.str "command", .str "cancel_order"),
                    (.str "network", .str "testnet"),
                    (.str "data", .obj [])]))
        "test mnemonic" okOracle).result =
      [(.str "success", .bool false), (.str "error", .str "orderId is required")] ∧
    (scriptRun true
        (.ok (.obj [(.str "command", .str "cancel_order"),
                    (.str "network", .str "testnet"),
                    (.str "data", .obj [])]))
        "test mnemonic" okOracle).exitCode = 1 ∧
    (scriptRun true
        (.ok (.obj [(.str "command", .str "cancel_order"),
                    (.str "network", .str "testnet"),
                    (.str "data", .obj [])]))
        "test mnemonic" okOracle).stdout =
      ["\x7b\"success\": false, \"error\": \"orderId is required\"\x7d"] ∧
    (cancel_order true (.obj []) okOracle).2 = [] ∧
    (scriptRun true
        (.ok (.obj [(.str "command", .str "cancel_order"),
                    (.str "network", .str "testnet"),
                    (.str "data", .obj [])]))
        "test mnemonic" okOracle).calls =
      [.connect .TESTNET, .walletFromMnemonic "test mnemonic"] :=
  cancel_missing_orderId
    [(.str "command", .str "cancel_order"), (.str "network", .str "testnet"),
     (.str "data", .obj [])]
    [] "test mnemonic" okOracle (by decide) rfl rfl rfl rfl rfl rfl

/-- Witness for `unknown_command_failure` at a concrete run. -/
theorem unknown_command_failure_witness :
    (scriptRun true (.ok (.obj [(.str "command", .str "foo")])) "m" okOracle).result =
      [(.str "success", .bool false),
       (.str "error", .str ("Unknown command: " ++ pyStr (.str "foo")))] ∧
    (scriptRun true (.ok (.obj [(.str "command", .str "foo")])) "m" okOracle).exitCode = 1 ∧
    (scriptRun true (.ok (.obj [(.str "command", .str "foo")])) "m" okOracle).stdout.length = 1 :=
  unknown_command_failure [(.str "command", .str "foo")] (.str "foo")
    (.str "testnet") .TESTNET "m" okOracle (by decide) rfl rfl rfl rfl rfl rfl rfl rfl

/-- Witness for `get_balance_flat_mapping` at a concrete oracle whose first
subaccount has no asset positions: the Result is exactly
`{"success": true, "balance": {}}`. -/
theorem get_balance_flat_mapping_witness :
    get_balance true (.obj [])
        { okOracle with getSubaccounts := .ok [.obj [(.str "assetPositions", .arr [])]] } =
      ([(.str "success", .bool true), (.str "balance", .obj [])],
       [.getSubaccounts]) ∧
    ([JValue.obj [(.str "assetPositions", .arr [])]] = ([] : List JValue) →
      ([] : PyDict) = []) ∧
    (∀ sub : PyDict, [JValue.obj [(.str "assetPositions", .arr [])]] = [.obj sub] →
      jlookup sub (.str "assetPositions") = some (.arr []) → ([] : PyDict) = []) :=
  get_balance_flat_mapping
    { okOracle with getSubaccounts := .ok [.obj [(.str "assetPositions", .arr [])]] }
    (.obj []) [.obj [(.str "assetPositions", .arr [])]] [] rfl rfl

/-- Witness for `mnemonic_noninterference` at two concrete mnemonics. -/
theorem mnemonic_noninterference_witness :
    (scriptRun true (.ok (.obj [])) "alpha" okOracle).stdout =
      (scriptRun true (.ok (.obj [])) "beta" okOracle).stdout ∧
    (scriptRun true (.ok (.obj [])) "alpha" okOracle).exitCode =
      (scriptRun true (.ok (.obj [])) "beta" okOracle).exitCode ∧
    (scriptRun true (.ok (.obj [])) "alpha" okOracle).result =
      (scriptRun true (.ok (.obj [])) "beta" okOracle).result :=
  mnemonic_noninterference true (.ok (.obj [])) okOracle "alpha" "beta"
    (by decide) (by decide)

/-- Witness for `mainnet_exception_falls_back_to_testnet` at a concrete
failing `make_mainnet`. -/
theorem mainnet_fallback_witness :
    wrapperNew true (.str "mainnet")
        { okOracle with makeMainnet := .error "mainnet unavailable" } =
      (.ok .TESTNET, [.makeMainnet]) ∧
    runWithClient true (.str "get_balance") (.str "mainnet") (.obj []) "m"
        { okOracle with makeMainnet := .error "mainnet unavailable" } =
      (.ok (execute_command true (.str "get_balance") (.obj [])
              { okOracle with makeMainnet := .error "mainnet unavailable" }).1,
       [.makeMainnet, .connect .TESTNET, .walletFromMnemonic "m"] ++
         (execute_command true (.str "get_balance") (.obj [])
             { okOracle with makeMainnet := .error "mainnet unavailable" }).2) ∧
    wrapperNew true (.str "goerli")
        { okOracle with makeMainnet := .error "mainnet unavailable" } =
      (.error ("Invalid network: " ++ pyStr (.str "goerli")), []) :=
  mainnet_exception_falls_back_to_testnet
    { okOracle with makeMainnet := .error "mainnet unavailable" }
    "mainnet unavailable" (.str "goerli") (.str "get_balance") (.obj []) "m"
    rfl rfl rfl rfl rfl

end DydxClient
